import Mathlib

/-!
Verification of the Fluid Framework Summarizer subsystem and the ambient
worker service dispatch.

The definitions below are a shallow embedding of the TypeScript sources:

* `SummarizerHeuristics` (its state and the operations `initialize`,
  `recordAttempt`, `ackLastSent`, `run`) — modelled by
  `SummarizerHeuristicsState`, `initHeuristics`, `recordAttempt`,
  `ackLastSent`, `heuristicsRun`.  The method named `initialize` in the
  source is rendered here as `initHeuristics`.
* `RunningSummarizer.handleOp`, `RunningSummarizer.waitStop`,
  `RunningSummarizer.trySummarize` (both the single-flight guard on the
  `summarizing` deferred and the three-attempt escalation), and
  `RunningSummarizer.summarize` (one attempt: generate, wait for broadcast,
  wait for ack/nack).  Asynchronous awaits are modelled by an environment
  record (`SummarizeEnv`) supplying the outcome of each suspension point,
  and wall-clock readings are explicit `Int` parameters.
* `Summarizer.generateSummary` (the facade) — `facadeGenerateSummary`.
* `WorkerService.processDocumentWork` and `WorkerService.startTask` from the
  external worker service — `processDocumentWork`, `startTask`; the
  translation case of the switch falls through into the ping case exactly as
  in the source (the missing break).
-/

/-- Canonical message of the error `generateSummaryFailure` (source constant
`summarizeErrors.generateSummaryFailure`). -/
def generateSummaryFailureMsg : String := "Error while generating or submitting summary"

/-- Canonical message of the error `summaryOpWaitTimeout`. -/
def summaryOpWaitTimeoutMsg : String := "Timeout while waiting for summarize op broadcast"

/-- Canonical message of the error `summaryAckWaitTimeout`. -/
def summaryAckWaitTimeoutMsg : String := "Timeout while waiting for summaryAck/summaryNack op"

/-- Canonical message of the error `summaryNack`. -/
def summaryNackMsg : String := "Server rejected summary via summaryNack op"

/-- Source constant `minOpsForLastSummary = 50`. -/
def minOpsForLastSummary : Int := 50

/-- Data about a summary attempt (source interface `ISummaryAttempt`). -/
structure ISummaryAttempt where
  refSequenceNumber : Int
  summaryTime : Int
  summarySequenceNumber : Option Int := none
deriving DecidableEq

/-- Mutable state of the source class `SummarizerHeuristics`, together with
the `lastOpSeqNumber` field it owns. -/
structure SummarizerHeuristicsState where
  lastAttempted : ISummaryAttempt
  lastAcked : ISummaryAttempt
  lastOpSeqNumber : Int
deriving DecidableEq

/-- Source method `SummarizerHeuristics.initialize`: sets both the last
attempted and the last acked summary to the given record. -/
def initHeuristics (h : SummarizerHeuristicsState) (lastSummary : ISummaryAttempt) :
    SummarizerHeuristicsState :=
  { h with lastAttempted := lastSummary, lastAcked := lastSummary }

/-- Source method `SummarizerHeuristics.recordAttempt`: the new last
attempted record takes the given reference sequence number, or the last seen
op sequence number when none was provided, and the current wall clock
(`Date.now()` is passed in as `now`). -/
def recordAttempt (h : SummarizerHeuristicsState) (refSequenceNumber : Option Int)
    (now : Int) : SummarizerHeuristicsState :=
  { h with lastAttempted :=
      { refSequenceNumber := refSequenceNumber.getD h.lastOpSeqNumber
        summaryTime := now } }

/-- Source method `SummarizerHeuristics.ackLastSent`: copies the last
attempted summary into the last acked summary. -/
def ackLastSent (h : SummarizerHeuristicsState) : SummarizerHeuristicsState :=
  { h with lastAcked := h.lastAttempted }

/-- Source assignment `this.heuristics.lastAttempted.summarySequenceNumber =
summaryOp.sequenceNumber` performed once the summarize op is broadcast. -/
def setLastAttemptedSummarySeq (h : SummarizerHeuristicsState) (n : Int) :
    SummarizerHeuristicsState :=
  { h with lastAttempted := { h.lastAttempted with summarySequenceNumber := some n } }

/-- Reasons to attempt a summary (source type `SummarizeReason`); the save
reason carries the client id and the op contents of the save op. -/
inductive SummarizeReason where
  | idle
  | maxTime
  | maxOps
  | save (clientId : String) (contents : String)
  | lastSummary
  | retry1
  | retry2
deriving DecidableEq

/-- Rendering of a `SummarizeReason` as the string the source uses; the save
reason renders as the template string of the source. -/
def reasonString : SummarizeReason → String
  | .idle => "idle"
  | .maxTime => "maxTime"
  | .maxOps => "maxOps"
  | .save clientId contents => "save;" ++ clientId ++ ": " ++ contents
  | .lastSummary => "lastSummary"
  | .retry1 => "retry1"
  | .retry2 => "retry2"

/-- Source interface `ISummaryConfiguration` (milliseconds and op counts). -/
structure ISummaryConfiguration where
  idleTime : Int
  maxTime : Int
  maxOps : Int
  maxAckWaitTime : Int
deriving DecidableEq

/-- Observable actions of one call to `SummarizerHeuristics.run`. -/
inductive HeuristicsAction where
  | clearIdleTimer
  | triggerSummarize (reason : SummarizeReason)
  | restartIdleTimer (duration : Int)
deriving DecidableEq

/-- Source method `SummarizerHeuristics.run`: clear the idle timer, then
either trigger a maxTime summary, or trigger a maxOps summary, or restart
the idle timer.  `now` stands for the `Date.now()` reading. -/
def heuristicsRun (configuration : ISummaryConfiguration) (now : Int)
    (h : SummarizerHeuristicsState) : List HeuristicsAction :=
  let timeSinceLastSummary := now - h.lastAcked.summaryTime
  let opCountSinceLastSummary := h.lastOpSeqNumber - h.lastAcked.refSequenceNumber
  HeuristicsAction.clearIdleTimer ::
    (if timeSinceLastSummary > configuration.maxTime then
      [.triggerSummarize .maxTime]
    else if opCountSinceLastSummary > configuration.maxOps then
      [.triggerSummarize .maxOps]
    else
      [.restartIdleTimer configuration.idleTime])

/-- Message types of the ordering stream that the summarizer inspects
(source enum `MessageType`, restricted to the constructors the embedded code
mentions, plus a catch-all). -/
inductive MessageType where
  | clientJoin
  | clientLeave
  | propose
  | reject
  | save
  | summarize
  | summaryAck
  | summaryNack
  | other
deriving DecidableEq

/-- Fields of a sequenced message that `RunningSummarizer.handleOp` reads. -/
structure ISequencedDocumentMessage where
  sequenceNumber : Int
  type : MessageType
  clientId : String
  contents : String
deriving DecidableEq

/-- Observable outcome of one call to `RunningSummarizer.handleOp`. -/
inductive HandleOpResult where
  | dropped
  | triggerSummarize (reason : SummarizeReason)
  | runHeuristics
deriving DecidableEq

/-- Source method `RunningSummarizer.handleOp`: a defined error drops the
op; otherwise the last op sequence number is updated first, then a save op
triggers a summary immediately and any other op runs the heuristics. -/
def handleOp (error : Option String) (op : ISequencedDocumentMessage)
    (h : SummarizerHeuristicsState) : SummarizerHeuristicsState × HandleOpResult :=
  if error.isSome then
    (h, .dropped)
  else
    let h1 := { h with lastOpSeqNumber := op.sequenceNumber }
    if op.type = .save then
      (h1, .triggerSummarize (.save op.clientId op.contents))
    else
      (h1, .runHeuristics)

/-- Operations driving the heuristics state in an execution of the
`RunningSummarizer` (the four mutators named by the specification). -/
inductive HeuristicsOp where
  | initOp (lastSummary : ISummaryAttempt)
  | recordOp (refSequenceNumber : Option Int) (now : Int)
  | ackOp
  | opReceived (op : ISequencedDocumentMessage)
deriving DecidableEq

/-- One step of the heuristics state under a `HeuristicsOp`; the
`opReceived` step is the state change of `RunningSummarizer.handleOp` on an
op with no error. -/
def heuristicsStep (h : SummarizerHeuristicsState) : HeuristicsOp → SummarizerHeuristicsState
  | .initOp lastSummary => initHeuristics h lastSummary
  | .recordOp refSequenceNumber now => recordAttempt h refSequenceNumber now
  | .ackOp => ackLastSent h
  | .opReceived op => (handleOp none op h).1

/-- Invariant of the specification: the last acked reference sequence number
is at most the last attempted one, which is at most the last seen op
sequence number. -/
abbrev heuristicsInvariant (h : SummarizerHeuristicsState) : Prop :=
  h.lastAcked.refSequenceNumber ≤ h.lastAttempted.refSequenceNumber ∧
    h.lastAttempted.refSequenceNumber ≤ h.lastOpSeqNumber

/-- Environmental assumptions under which a `HeuristicsOp` respects the
stream order: ops carry sequence numbers no smaller than the current
`lastOpSeqNumber`, and reference sequence numbers handed to the heuristics
lie between the last acked reference sequence number and the current
`lastOpSeqNumber`. -/
abbrev heuristicsOpOk (h : SummarizerHeuristicsState) : HeuristicsOp → Prop
  | .initOp lastSummary => lastSummary.refSequenceNumber ≤ h.lastOpSeqNumber
  | .recordOp refSequenceNumber _ =>
      match refSequenceNumber with
      | none => True
      | some r => h.lastAcked.refSequenceNumber ≤ r ∧ r ≤ h.lastOpSeqNumber
  | .ackOp => True
  | .opReceived op => h.lastOpSeqNumber ≤ op.sequenceNumber

/-- Chain of `heuristicsOpOk` along a list of operations. -/
def heuristicsTraceOk (h : SummarizerHeuristicsState) : List HeuristicsOp → Prop
  | [] => True
  | op :: rest => heuristicsOpOk h op ∧ heuristicsTraceOk (heuristicsStep h op) rest

/-- Folding a list of operations over the heuristics state. -/
def heuristicsExec (h : SummarizerHeuristicsState) (ops : List HeuristicsOp) :
    SummarizerHeuristicsState :=
  ops.foldl heuristicsStep h

/-- Options passed to one summarize attempt (source type
`Omit IGenerateSummaryOptions summaryLogger`). -/
structure SummarizeOptions where
  refreshLatestAck : Bool
  fullTree : Bool
deriving DecidableEq

/-- Reasons the summarizer may stop (source type `SummarizerStopReason`). -/
inductive SummarizerStopReason where
  | failToSummarize
  | parentNoLongerSummarizer
  | parentNotConnected
  | parentShouldNotSummarize
  | disposed
deriving DecidableEq

/-- Trace of the three-attempt escalation inside
`RunningSummarizer.trySummarize`: the summarize calls made (reason and
options, in order) and the stop reason passed to the internals provider, if
any. -/
structure EscalationOutcome where
  attempts : List (SummarizeReason × SummarizeOptions)
  stopReason : Option SummarizerStopReason
deriving DecidableEq

/-- Escalation body of `RunningSummarizer.trySummarize` (the async block):
`summarizeResult` stands for the boolean result of `this.summarize` at each
reason and options pair. -/
def trySummarizeAttempts (reason : SummarizeReason)
    (summarizeResult : SummarizeReason → SummarizeOptions → Bool) : EscalationOutcome :=
  let firstOptions : SummarizeOptions := { refreshLatestAck := false, fullTree := false }
  if summarizeResult reason firstOptions then
    { attempts := [(reason, firstOptions)], stopReason := none }
  else
    let retry1Options : SummarizeOptions := { refreshLatestAck := true, fullTree := false }
    if summarizeResult .retry1 retry1Options then
      { attempts := [(reason, firstOptions), (.retry1, retry1Options)], stopReason := none }
    else
      let retry2Options : SummarizeOptions := { refreshLatestAck := true, fullTree := true }
      if summarizeResult .retry2 retry2Options then
        { attempts := [(reason, firstOptions), (.retry1, retry1Options), (.retry2, retry2Options)]
          stopReason := none }
      else
        { attempts := [(reason, firstOptions), (.retry1, retry1Options), (.retry2, retry2Options)]
          stopReason := some .failToSummarize }

/-- Flags of `RunningSummarizer` governing the single-flight discipline: the
`summarizing` deferred is modelled by its presence, alongside
`tryWhileSummarizing`, `stopping` and `disposed`. -/
structure RunningSummarizerFlags where
  summarizing : Bool
  tryWhileSummarizing : Bool
  stopping : Bool
  disposed : Bool
deriving DecidableEq

/-- Entry of `RunningSummarizer.trySummarize`: when an attempt is in flight
only the coalescing flag is set, otherwise the `summarizing` deferred is
allocated and a new attempt starts.  The boolean reports whether a new
attempt started. -/
def trySummarizeEntry (s : RunningSummarizerFlags) : RunningSummarizerFlags × Bool :=
  if s.summarizing then
    ({ s with tryWhileSummarizing := true }, false)
  else
    ({ s with summarizing := true }, true)

/-- Finalizer of the attempt inside `RunningSummarizer.trySummarize`: the
`summarizing` deferred is resolved and cleared, and when the coalescing flag
is set and the summarizer is neither stopping nor disposed the flag is
cleared and `heuristics.run()` is called once.  The number reports how many
times `heuristics.run()` ran. -/
def attemptFinally (s : RunningSummarizerFlags) : RunningSummarizerFlags × Nat :=
  let s1 := { s with summarizing := false }
  if s1.tryWhileSummarizing && !s1.stopping && !s1.disposed then
    ({ s1 with tryWhileSummarizing := false }, 1)
  else
    (s1, 0)

/-- Iterated calls to `trySummarizeEntry`, counting how many of them started
a new attempt. -/
def repeatTriggers : Nat → RunningSummarizerFlags → RunningSummarizerFlags × Nat
  | 0, s => (s, 0)
  | n + 1, s =>
      let r := trySummarizeEntry s
      let rest := repeatTriggers n r.1
      (rest.1, rest.2 + (if r.2 then 1 else 0))

/-- Behavior of one call to `RunningSummarizer.waitStop`. -/
inductive WaitStopBehavior where
  | returnImmediately
  | awaitSummarizingOnly
  | triggerLastSummaryAndAwait
deriving DecidableEq

/-- Outcome of `RunningSummarizer.waitStop`: the stopping flag afterwards
and the awaited behavior. -/
structure WaitStopOutcome where
  stopping : Bool
  behavior : WaitStopBehavior
deriving DecidableEq

/-- Source method `RunningSummarizer.waitStop`: a disposed summarizer
returns at once; one already stopping awaits the in-flight attempt; the
first effective call sets the stopping flag and triggers a last summary
exactly when the outstanding op count exceeds `minOpsForLastSummary`. -/
def waitStop (disposed stopping : Bool) (h : SummarizerHeuristicsState) : WaitStopOutcome :=
  if disposed then
    { stopping := stopping, behavior := .returnImmediately }
  else if stopping then
    { stopping := stopping, behavior := .awaitSummarizingOnly }
  else
    let outstandingOps := h.lastOpSeqNumber - h.lastAcked.refSequenceNumber
    if outstandingOps > minOpsForLastSummary then
      { stopping := true, behavior := .triggerLastSummaryAndAwait }
    else
      { stopping := true, behavior := .returnImmediately }

/-- Return value of the external `generateSummary` call (source type
`GenerateSummaryData`, restricted to the fields the summarizer reads). -/
structure GenerateSummaryData where
  referenceSequenceNumber : Int
  submitted : Bool
  clientSequenceNumber : Int
  error : Option String := none
deriving DecidableEq

/-- Outcome of awaiting the external `generateSummary`: a thrown error or a
returned data record. -/
inductive GenerateSummaryOutcome where
  | throws (error : String)
  | returns (data : GenerateSummaryData)
deriving DecidableEq

/-- Fields of the broadcast summarize op that the attempt reads. -/
structure SummaryOpInfo where
  sequenceNumber : Int
  referenceSequenceNumber : Int
deriving DecidableEq

/-- The ack or nack resolving the wait (source: `ackNack.type` is
`SummaryAck` or `SummaryNack`). -/
inductive AckNackOutcome where
  | ack (sequenceNumber : Int)
  | nack (sequenceNumber : Int) (errorMessage : String)
deriving DecidableEq

/-- Result of racing a wait against the pending-ack promise timer: either
the timer marker won (`checkNotTimeout` is false) or the real value
arrived. -/
inductive RaceOutcome (α : Type) where
  | timeout
  | value (a : α)
deriving DecidableEq

/-- Environment of one summarize attempt: the outcome of each suspension
point of `RunningSummarizer.summarize`, and the `Date.now()` reading taken
at `recordAttempt` time. -/
structure SummarizeEnv where
  gen : GenerateSummaryOutcome
  recordTime : Int
  broadcast : RaceOutcome SummaryOpInfo
  ackNack : RaceOutcome AckNackOutcome
deriving DecidableEq

/-- Outcome of one summarize attempt: the boolean the source returns, the
canonical messages passed to the raise-warning callback, and the heuristics
state afterwards. -/
structure SummarizeOutcome where
  result : Bool
  warnings : List String
  state : SummarizerHeuristicsState
deriving DecidableEq

/-- Source method `RunningSummarizer.summarize` as a function of the
environment: generate (with `recordAttempt` in the finally block), check
submission, wait for broadcast, wait for ack or nack. -/
def summarizeAttempt (env : SummarizeEnv) (h : SummarizerHeuristicsState) :
    SummarizeOutcome :=
  match env.gen with
  | .throws _ =>
      let h1 := recordAttempt h none env.recordTime
      { result := false, warnings := [generateSummaryFailureMsg], state := h1 }
  | .returns data =>
      let h1 := recordAttempt h (some data.referenceSequenceNumber) env.recordTime
      if data.submitted = false then
        { result := false, warnings := [generateSummaryFailureMsg], state := h1 }
      else
        match env.broadcast with
        | .timeout =>
            { result := false, warnings := [summaryOpWaitTimeoutMsg], state := h1 }
        | .value summaryOp =>
            let h2 := setLastAttemptedSummarySeq h1 summaryOp.sequenceNumber
            match env.ackNack with
            | .timeout =>
                { result := false, warnings := [summaryAckWaitTimeoutMsg], state := h2 }
            | .value (.ack _) =>
                { result := true, warnings := [], state := ackLastSent h2 }
            | .value (.nack _ _) =>
                { result := false, warnings := [summaryNackMsg], state := h2 }

/-- Modelled from the claim wording: an attempt ends in a summary ack
exactly when the generator returned a submitted summary, the broadcast
arrived before the timer, and the ack or nack race resolved with an ack. -/
def attemptAcked (env : SummarizeEnv) : Bool :=
  match env.gen with
  | .throws _ => false
  | .returns data =>
      data.submitted &&
        (match env.broadcast with
        | .timeout => false
        | .value _ =>
            match env.ackNack with
            | .timeout => false
            | .value (.ack _) => true
            | .value (.nack _ _) => false)

/-- Modelled from the claim wording: the canonical messages the attempt must
raise, one per failure mode and none on an ack. -/
def claimedWarnings (env : SummarizeEnv) : List String :=
  match env.gen with
  | .throws _ => [generateSummaryFailureMsg]
  | .returns data =>
      if data.submitted = false then [generateSummaryFailureMsg]
      else
        match env.broadcast with
        | .timeout => [summaryOpWaitTimeoutMsg]
        | .value _ =>
            match env.ackNack with
            | .timeout => [summaryAckWaitTimeoutMsg]
            | .value (.ack _) => []
            | .value (.nack _ _) => [summaryNackMsg]

/-- Source method `Summarizer.generateSummary` (the facade): delegate to the
internals provider, then stop with `parentNoLongerSummarizer` when neither
the on-behalf-of client nor the own client is the computed summarizer; the
delegated result is returned in all cases. -/
def facadeGenerateSummary (onBehalfOfClientId clientId summarizerClientId : Option String)
    (delegated : GenerateSummaryData) : GenerateSummaryData × Option SummarizerStopReason :=
  if onBehalfOfClientId ≠ summarizerClientId ∧ clientId ≠ summarizerClientId then
    (delegated, some .parentNoLongerSummarizer)
  else
    (delegated, none)

/-- Kinds of work objects the worker service constructs. -/
inductive WorkKind where
  | snapshot
  | intel
  | spell
  | translation
  | ping
deriving DecidableEq

/-- Registration state of the worker service: the source `documentMap` as a
list of entries keyed by document id and work type. -/
abbrev DocumentMap := List ((String × String) × WorkKind)

/-- Membership test of the source checks `docId in this.documentMap` and
`workType in this.documentMap[docId]`. -/
def docMapHas (dm : DocumentMap) (docId workType : String) : Bool :=
  dm.any fun e => e.1.1 == docId && e.1.2 == workType

/-- Source method `WorkerService.startTask`: a work item is registered and
started only when no work of this type is yet tracked for the document.
The returned list holds the work on which `start` was invoked. -/
def startTask (dm : DocumentMap) (docId workType : String) (worker : WorkKind) :
    DocumentMap × List WorkKind :=
  if docMapHas dm docId workType then
    (dm, [])
  else
    (((docId, workType), worker) :: dm, [worker])

/-- Outcome of `WorkerService.processDocumentWork`: the registration map,
the work objects constructed, and the work objects actually started. -/
structure ProcessWorkOutcome where
  map : DocumentMap
  constructed : List WorkKind
  started : List WorkKind
deriving DecidableEq

/-- Source method `WorkerService.processDocumentWork`: the dispatch switch,
with the translation case falling through into the ping case because the
source lacks a break there; in the fall-through the second `startTask` call
still receives the dispatch variable `workType`. -/
def processDocumentWork (dm : DocumentMap) (docId workType : String) :
    Except String ProcessWorkOutcome :=
  if workType = "snapshot" then
    let r := startTask dm docId workType .snapshot
    .ok { map := r.1, constructed := [.snapshot], started := r.2 }
  else if workType = "intel" then
    let r := startTask dm docId workType .intel
    .ok { map := r.1, constructed := [.intel], started := r.2 }
  else if workType = "spell" then
    let r := startTask dm docId workType .spell
    .ok { map := r.1, constructed := [.spell], started := r.2 }
  else if workType = "translation" then
    let r1 := startTask dm docId workType .translation
    let r2 := startTask r1.1 docId workType .ping
    .ok { map := r2.1, constructed := [.translation, .ping], started := r1.2 ++ r2.2 }
  else if workType = "ping" then
    let r := startTask dm docId workType .ping
    .ok { map := r.1, constructed := [.ping], started := r.2 }
  else
    .error "Unknown work type!"

/-!  Theorems.  Each claim of the specification is settled by one theorem
below; helper lemmas precede the theorem that uses them. -/

/-- Helper: while an attempt is in flight, any number of trigger calls
starts no attempt and at most sets the coalescing flag. -/
theorem repeatTriggers_inflight : ∀ (k : Nat) (s : RunningSummarizerFlags),
    s.summarizing = true →
    repeatTriggers k s =
      ({ s with tryWhileSummarizing := if k = 0 then s.tryWhileSummarizing else true }, 0)
  | 0, s, _ => by simp [repeatTriggers]
  | n + 1, ⟨a, b, c, d⟩, hs => by
      obtain rfl : a = true := hs
      have ih := repeatTriggers_inflight n ⟨true, true, c, d⟩ rfl
      simp only [ite_self] at ih
      simp [repeatTriggers, trySummarizeEntry, ih]

/-- C1: the escalation inside one single-flight trigger makes a first
attempt with refreshLatestAck false and fullTree false; a second attempt
with reason retry1 and refreshLatestAck true, fullTree false exactly when
the first returned false; a third with reason retry2 and refreshLatestAck
true, fullTree true exactly when the first two returned false; it never
makes a fourth attempt, and it stops with failToSummarize exactly when all
three returned false. -/
theorem c1_trySummarize_escalation (reason : SummarizeReason)
    (summarizeResult : SummarizeReason → SummarizeOptions → Bool) :
    (trySummarizeAttempts reason summarizeResult).attempts[0]? =
      some (reason, { refreshLatestAck := false, fullTree := false }) ∧
    (trySummarizeAttempts reason summarizeResult).attempts[1]? =
      (if summarizeResult reason { refreshLatestAck := false, fullTree := false } then none
       else some (.retry1, { refreshLatestAck := true, fullTree := false })) ∧
    (trySummarizeAttempts reason summarizeResult).attempts[2]? =
      (if summarizeResult reason { refreshLatestAck := false, fullTree := false } then none
       else if summarizeResult .retry1 { refreshLatestAck := true, fullTree := false } then none
       else some (.retry2, { refreshLatestAck := true, fullTree := true })) ∧
    (trySummarizeAttempts reason summarizeResult).attempts.length ≤ 3 ∧
    ((trySummarizeAttempts reason summarizeResult).stopReason = some .failToSummarize ↔
      summarizeResult reason { refreshLatestAck := false, fullTree := false } = false ∧
      summarizeResult .retry1 { refreshLatestAck := true, fullTree := false } = false ∧
      summarizeResult .retry2 { refreshLatestAck := true, fullTree := true } = false) ∧
    ((trySummarizeAttempts reason summarizeResult).stopReason = none ∨
      (trySummarizeAttempts reason summarizeResult).stopReason = some .failToSummarize) := by
  cases h1 : summarizeResult reason { refreshLatestAck := false, fullTree := false } <;>
    cases h2 : summarizeResult .retry1 { refreshLatestAck := true, fullTree := false } <;>
    cases h3 : summarizeResult .retry2 { refreshLatestAck := true, fullTree := true } <;>
    simp [trySummarizeAttempts, h1, h2, h3]

/-- C2: while an attempt is in flight, every trigger call starts no new
attempt and only sets the coalescing flag; after the attempt completes,
with the summarizer neither stopping nor disposed, exactly one follow-up
heuristics run happens regardless of how many triggers arrived. -/
theorem c2_single_flight_coalescing (k : Nat) (s : RunningSummarizerFlags)
    (hs : s.summarizing = true) (hstop : s.stopping = false)
    (hdisp : s.disposed = false) (hk : 1 ≤ k) :
    (repeatTriggers k s).2 = 0 ∧
    (repeatTriggers k s).1 =
      { summarizing := true, tryWhileSummarizing := true
        stopping := false, disposed := false } ∧
    (attemptFinally (repeatTriggers k s).1).2 = 1 ∧
    (attemptFinally (repeatTriggers k s).1).1 =
      { summarizing := false, tryWhileSummarizing := false
        stopping := false, disposed := false } := by
  obtain ⟨m, rfl⟩ : ∃ m, k = m + 1 := ⟨k - 1, (Nat.succ_pred_eq_of_pos hk).symm⟩
  obtain ⟨a, b, c, d⟩ := s
  simp only at hs hstop hdisp
  subst hs hstop hdisp
  rw [repeatTriggers_inflight (m + 1) _ rfl]
  simp [attemptFinally]

/-- Witness for C2 at three triggers arriving during one in-flight attempt. -/
theorem c2_single_flight_coalescing_witness :
    (RunningSummarizerFlags.mk true false false false).summarizing = true ∧
    (RunningSummarizerFlags.mk true false false false).stopping = false ∧
    (RunningSummarizerFlags.mk true false false false).disposed = false ∧
    1 ≤ 3 ∧
    ((repeatTriggers 3 (RunningSummarizerFlags.mk true false false false)).2 = 0 ∧
      (repeatTriggers 3 (RunningSummarizerFlags.mk true false false false)).1 =
        { summarizing := true, tryWhileSummarizing := true
          stopping := false, disposed := false } ∧
      (attemptFinally (repeatTriggers 3 (RunningSummarizerFlags.mk true false false false)).1).2
        = 1 ∧
      (attemptFinally (repeatTriggers 3 (RunningSummarizerFlags.mk true false false false)).1).1 =
        { summarizing := false, tryWhileSummarizing := false
          stopping := false, disposed := false }) :=
  ⟨rfl, rfl, rfl, by norm_num,
    c2_single_flight_coalescing 3 ⟨true, false, false, false⟩ rfl rfl rfl (by norm_num)⟩

/-- Helper for C3: one step of the heuristics preserves the invariant when
the input respects the stream order. -/
theorem heuristicsStep_invariant (h : SummarizerHeuristicsState) (op : HeuristicsOp)
    (hinv : heuristicsInvariant h) (hok : heuristicsOpOk h op) :
    heuristicsInvariant (heuristicsStep h op) := by
  obtain ⟨h1, h2⟩ := hinv
  cases op with
  | initOp lastSummary =>
      simp only [heuristicsStep, initHeuristics, heuristicsOpOk] at *
      exact ⟨le_refl _, hok⟩
  | recordOp refSequenceNumber now =>
      cases refSequenceNumber with
      | none =>
          simp only [heuristicsStep, recordAttempt, Option.getD] at *
          exact ⟨le_trans h1 h2, le_refl _⟩
      | some r =>
          simp only [heuristicsStep, recordAttempt, Option.getD, heuristicsOpOk] at *
          exact ⟨hok.1, hok.2⟩
  | ackOp =>
      simp only [heuristicsStep, ackLastSent] at *
      exact ⟨le_refl _, h2⟩
  | opReceived op' =>
      have hfst : (handleOp none op' h).1 = { h with lastOpSeqNumber := op'.sequenceNumber } := by
        simp only [handleOp, Option.isSome_none, Bool.false_eq_true, if_false]
        split <;> rfl
      simp only [heuristicsStep, hfst, heuristicsOpOk] at *
      exact ⟨h1, le_trans h2 hok⟩

/-- C3 (amended): the invariant on the heuristics state is preserved along
every execution whose inputs respect the stream order (see
`heuristicsTraceOk`). -/
theorem c3_heuristics_invariant (ops : List HeuristicsOp) (h : SummarizerHeuristicsState)
    (hinv : heuristicsInvariant h) (hok : heuristicsTraceOk h ops) :
    heuristicsInvariant (heuristicsExec h ops) := by
  induction ops generalizing h with
  | nil => exact hinv
  | cons op rest ih =>
      obtain ⟨hok1, hok2⟩ := hok
      exact ih (heuristicsStep h op) (heuristicsStep_invariant h op hinv hok1) hok2

/-- C3 counterexample: the code does not guard `handleOp` against an op
whose sequence number is below the current state, so the invariant is not
preserved by every operation on every input: from a state satisfying the
invariant, an op with sequence number 0 drives `lastOpSeqNumber` below
`lastAttempted.refSequenceNumber`. -/
theorem c3_heuristics_invariant_counterexample :
    heuristicsInvariant ⟨⟨5, 0, none⟩, ⟨5, 0, none⟩, 5⟩ ∧
    ¬ heuristicsInvariant
        (handleOp none ⟨0, .clientJoin, "c", ""⟩ ⟨⟨5, 0, none⟩, ⟨5, 0, none⟩, 5⟩).1 := by
  decide

/-- Witness for C3 at a concrete stream-ordered trace. -/
theorem c3_heuristics_invariant_witness :
    heuristicsInvariant ⟨⟨1, 0, none⟩, ⟨1, 0, none⟩, 2⟩ ∧
    heuristicsTraceOk ⟨⟨1, 0, none⟩, ⟨1, 0, none⟩, 2⟩
      [.opReceived ⟨3, .clientJoin, "c", ""⟩, .recordOp (some 2) 7, .ackOp] ∧
    heuristicsInvariant (heuristicsExec ⟨⟨1, 0, none⟩, ⟨1, 0, none⟩, 2⟩
      [.opReceived ⟨3, .clientJoin, "c", ""⟩, .recordOp (some 2) 7, .ackOp]) :=
  ⟨⟨by norm_num, by norm_num⟩,
    by
      refine ⟨by norm_num, ⟨?_, ?_⟩⟩ <;>
        simp [heuristicsStep, handleOp, recordAttempt, heuristicsTraceOk, heuristicsOpOk],
    c3_heuristics_invariant _ _ ⟨by norm_num, by norm_num⟩
      (by
        refine ⟨by norm_num, ⟨?_, ?_⟩⟩ <;>
          simp [heuristicsStep, handleOp, recordAttempt, heuristicsTraceOk, heuristicsOpOk])⟩

/-- C4: every heuristics run first clears the idle timer; a maxTime excess
triggers maxTime and nothing else, otherwise a maxOps excess triggers
maxOps, otherwise the idle timer restarts with idleTime — the maxTime check
strictly precedes the maxOps check. -/
theorem c4_heuristics_run_order (configuration : ISummaryConfiguration) (now : Int)
    (h : SummarizerHeuristicsState) :
    (heuristicsRun configuration now h).head? = some .clearIdleTimer ∧
    (now - h.lastAcked.summaryTime > configuration.maxTime →
      heuristicsRun configuration now h =
        [.clearIdleTimer, .triggerSummarize .maxTime]) ∧
    (¬ now - h.lastAcked.summaryTime > configuration.maxTime →
      h.lastOpSeqNumber - h.lastAcked.refSequenceNumber > configuration.maxOps →
      heuristicsRun configuration now h =
        [.clearIdleTimer, .triggerSummarize .maxOps]) ∧
    (¬ now - h.lastAcked.summaryTime > configuration.maxTime →
      ¬ h.lastOpSeqNumber - h.lastAcked.refSequenceNumber > configuration.maxOps →
      heuristicsRun configuration now h =
        [.clearIdleTimer, .restartIdleTimer configuration.idleTime]) := by
  refine ⟨?_, ?_, ?_, ?_⟩ <;> intros <;> simp [heuristicsRun, *]

/-- C5: an attempt returns true exactly when it ends in a summary ack, in
which case no warning is raised and the last acked summary equals the last
attempted one; every other outcome returns false and raises exactly the one
canonical message of its failure mode. -/
theorem c5_attempt_outcome (env : SummarizeEnv) (h : SummarizerHeuristicsState) :
    ((summarizeAttempt env h).result = true ↔ attemptAcked env = true) ∧
    (summarizeAttempt env h).warnings = claimedWarnings env ∧
    ((summarizeAttempt env h).result = false ↔
      (summarizeAttempt env h).warnings.length = 1) ∧
    (attemptAcked env = true →
      (summarizeAttempt env h).state.lastAcked =
        (summarizeAttempt env h).state.lastAttempted) := by
  obtain ⟨gen, recordTime, broadcast, ackNack⟩ := env
  cases gen with
  | throws e =>
      simp [summarizeAttempt, attemptAcked, claimedWarnings]
  | returns data =>
      cases hsub : data.submitted with
      | false => simp [summarizeAttempt, attemptAcked, claimedWarnings, hsub]
      | true =>
          cases broadcast with
          | timeout => simp [summarizeAttempt, attemptAcked, claimedWarnings, hsub]
          | value summaryOp =>
              cases ackNack with
              | timeout => simp [summarizeAttempt, attemptAcked, claimedWarnings, hsub]
              | value an =>
                  cases an <;>
                    simp [summarizeAttempt, attemptAcked, claimedWarnings, hsub, ackLastSent,
                      setLastAttemptedSummarySeq]

/-- C6: whether the generator returns or throws, `recordAttempt` runs, so
after the attempt the last attempted record carries the returned reference
sequence number (or the current last op sequence number when none came
back) and the wall clock read at record time, which a monotone clock makes
no earlier than the attempt start. -/
theorem c6_recordAttempt_always (env : SummarizeEnv) (h : SummarizerHeuristicsState)
    (tStart : Int) (hclock : tStart ≤ env.recordTime) :
    (summarizeAttempt env h).state.lastAttempted.refSequenceNumber =
      (match env.gen with
       | .returns data => data.referenceSequenceNumber
       | .throws _ => h.lastOpSeqNumber) ∧
    (summarizeAttempt env h).state.lastAttempted.summaryTime = env.recordTime ∧
    tStart ≤ (summarizeAttempt env h).state.lastAttempted.summaryTime := by
  obtain ⟨gen, recordTime, broadcast, ackNack⟩ := env
  simp only at hclock
  cases gen with
  | throws e =>
      simpa [summarizeAttempt, recordAttempt] using hclock
  | returns data =>
      cases hsub : data.submitted with
      | false => simpa [summarizeAttempt, recordAttempt, hsub] using hclock
      | true =>
          cases broadcast with
          | timeout => simpa [summarizeAttempt, recordAttempt, hsub] using hclock
          | value summaryOp =>
              cases ackNack with
              | timeout =>
                  simpa [summarizeAttempt, recordAttempt, hsub,
                    setLastAttemptedSummarySeq] using hclock
              | value an =>
                  cases an <;>
                    simpa [summarizeAttempt, recordAttempt, hsub, setLastAttemptedSummarySeq,
                      ackLastSent] using hclock

/-- Witness for C6 with a returning generator and a clock reading after the
attempt start. -/
theorem c6_recordAttempt_always_witness :
    (3 : Int) ≤ (SummarizeEnv.mk (.returns ⟨7, true, 1, none⟩) 10 .timeout .timeout).recordTime ∧
    ((summarizeAttempt (SummarizeEnv.mk (.returns ⟨7, true, 1, none⟩) 10 .timeout .timeout)
        ⟨⟨1, 0, none⟩, ⟨1, 0, none⟩, 5⟩).state.lastAttempted.refSequenceNumber =
      (match (SummarizeEnv.mk (.returns ⟨7, true, 1, none⟩) 10 .timeout .timeout).gen with
       | .returns data => data.referenceSequenceNumber
       | .throws _ => (⟨⟨1, 0, none⟩, ⟨1, 0, none⟩, 5⟩ :
           SummarizerHeuristicsState).lastOpSeqNumber) ∧
      (summarizeAttempt (SummarizeEnv.mk (.returns ⟨7, true, 1, none⟩) 10 .timeout .timeout)
        ⟨⟨1, 0, none⟩, ⟨1, 0, none⟩, 5⟩).state.lastAttempted.summaryTime =
        (SummarizeEnv.mk (.returns ⟨7, true, 1, none⟩) 10 .timeout .timeout).recordTime ∧
      (3 : Int) ≤ (summarizeAttempt
        (SummarizeEnv.mk (.returns ⟨7, true, 1, none⟩) 10 .timeout .timeout)
        ⟨⟨1, 0, none⟩, ⟨1, 0, none⟩, 5⟩).state.lastAttempted.summaryTime) :=
  ⟨by norm_num,
    c6_recordAttempt_always (SummarizeEnv.mk (.returns ⟨7, true, 1, none⟩) 10 .timeout .timeout)
      ⟨⟨1, 0, none⟩, ⟨1, 0, none⟩, 5⟩ 3 (by norm_num)⟩

/-- C7: `waitStop` triggers a last summary exactly when the summarizer is
neither disposed nor already stopping and the outstanding op count exceeds
the threshold, and in that case it awaits the in-flight signal; below the
threshold the first effective call returns without triggering. -/
theorem c7_waitStop_threshold (disposed stopping : Bool) (h : SummarizerHeuristicsState) :
    ((waitStop disposed stopping h).behavior = .triggerLastSummaryAndAwait ↔
      disposed = false ∧ stopping = false ∧
        h.lastOpSeqNumber - h.lastAcked.refSequenceNumber > minOpsForLastSummary) ∧
    (disposed = true →
      waitStop disposed stopping h =
        { stopping := stopping, behavior := .returnImmediately }) ∧
    (disposed = false → stopping = true →
      waitStop disposed stopping h =
        { stopping := true, behavior := .awaitSummarizingOnly }) ∧
    (disposed = false → stopping = false →
      ¬ h.lastOpSeqNumber - h.lastAcked.refSequenceNumber > minOpsForLastSummary →
      waitStop disposed stopping h =
        { stopping := true, behavior := .returnImmediately }) := by
  cases disposed <;> cases stopping <;>
    by_cases hgt : h.lastOpSeqNumber - h.lastAcked.refSequenceNumber > minOpsForLastSummary <;>
    simp [waitStop, hgt]

/-- C8: `handleOp` drops an op that arrives with an error and changes no
state; otherwise it first records the op sequence number, then a save op
triggers a summary immediately with the save reason rendered as
`save;<clientId>: <contents>`, and any other op runs the heuristics. -/
theorem c8_handleOp (error : Option String) (op : ISequencedDocumentMessage)
    (h : SummarizerHeuristicsState) :
    (error.isSome = true → handleOp error op h = (h, .dropped)) ∧
    (error = none →
      (handleOp error op h).1 = { h with lastOpSeqNumber := op.sequenceNumber } ∧
      (op.type = .save →
        (handleOp error op h).2 = .triggerSummarize (.save op.clientId op.contents) ∧
        reasonString (.save op.clientId op.contents) =
          "save;" ++ op.clientId ++ ": " ++ op.contents) ∧
      (op.type ≠ .save → (handleOp error op h).2 = .runHeuristics)) := by
  refine ⟨fun he => by simp [handleOp, he], fun he => ⟨?_, ?_, ?_⟩⟩
  · subst he
    by_cases hsave : op.type = .save <;> simp [handleOp, hsave]
  · intro hsave
    subst he
    simp [handleOp, hsave, reasonString]
  · intro hsave
    subst he
    simp [handleOp, hsave]

/-- C9 counterexample: dispatching translation work on a fresh document
constructs both the translation work and, through the missing break, a ping
work — but the second `startTask` call still carries workType
"translation", whose slot the first call just filled, so the ping work is
never started: the started list holds only the translation work. -/
theorem c9_processDocumentWork_counterexample :
    processDocumentWork [] "doc" "translation" =
      .ok { map := [(("doc", "translation"), .translation)]
            constructed := [.translation, .ping]
            started := [.translation] } := by
  simp [processDocumentWork, startTask, docMapHas]

/-- Helper for C9: after registering a work type for a document, the
membership test for that same key answers true. -/
theorem docMapHas_cons_self (dm : DocumentMap) (docId workType : String) (w : WorkKind) :
    docMapHas (((docId, workType), w) :: dm) docId workType = true := by
  simp [docMapHas]

/-- C9 (amended): on a document with no tracked work, the translation case
falls through into the ping case, constructing a ping work and invoking
`startTask` on it, but under workType "translation", which is already
registered, so only the translation work is started; every other
recognized work type constructs and starts exactly one work item. -/
theorem c9_translation_fallthrough (dm : DocumentMap) (docId : String)
    (hfresh : ∀ workType, docMapHas dm docId workType = false) :
    processDocumentWork dm docId "translation" =
      .ok { map := ((docId, "translation"), .translation) :: dm
            constructed := [.translation, .ping]
            started := [.translation] } ∧
    processDocumentWork dm docId "snapshot" =
      .ok { map := ((docId, "snapshot"), .snapshot) :: dm
            constructed := [.snapshot], started := [.snapshot] } ∧
    processDocumentWork dm docId "intel" =
      .ok { map := ((docId, "intel"), .intel) :: dm
            constructed := [.intel], started := [.intel] } ∧
    processDocumentWork dm docId "spell" =
      .ok { map := ((docId, "spell"), .spell) :: dm
            constructed := [.spell], started := [.spell] } ∧
    processDocumentWork dm docId "ping" =
      .ok { map := ((docId, "ping"), .ping) :: dm
            constructed := [.ping], started := [.ping] } := by
  refine ⟨?_, ?_, ?_, ?_, ?_⟩ <;>
    simp [processDocumentWork, startTask, hfresh, docMapHas_cons_self]

/-- Witness for C9 on the empty registration map. -/
theorem c9_translation_fallthrough_witness :
    (∀ workType, docMapHas [] "d" workType = false) ∧
    (processDocumentWork [] "d" "translation" =
      .ok { map := [(("d", "translation"), .translation)]
            constructed := [.translation, .ping]
            started := [.translation] } ∧
    processDocumentWork [] "d" "snapshot" =
      .ok { map := [(("d", "snapshot"), .snapshot)]
            constructed := [.snapshot], started := [.snapshot] } ∧
    processDocumentWork [] "d" "intel" =
      .ok { map := [(("d", "intel"), .intel)]
            constructed := [.intel], started := [.intel] } ∧
    processDocumentWork [] "d" "spell" =
      .ok { map := [(("d", "spell"), .spell)]
            constructed := [.spell], started := [.spell] } ∧
    processDocumentWork [] "d" "ping" =
      .ok { map := [(("d", "ping"), .ping)]
            constructed := [.ping], started := [.ping] }) :=
  ⟨fun _ => rfl, c9_translation_fallthrough [] "d" (fun _ => rfl)⟩

/-- C10: the facade's generateSummary stops the summarizer with
parentNoLongerSummarizer exactly when neither the on-behalf-of client nor
the own client is the computed summarizer, and the delegated result is
returned to the caller in all cases. -/
theorem c10_facade_generateSummary
    (onBehalfOfClientId clientId summarizerClientId : Option String)
    (delegated : GenerateSummaryData) :
    (facadeGenerateSummary onBehalfOfClientId clientId summarizerClientId delegated).1 =
      delegated ∧
    ((facadeGenerateSummary onBehalfOfClientId clientId summarizerClientId delegated).2 =
        some .parentNoLongerSummarizer ↔
      onBehalfOfClientId ≠ summarizerClientId ∧ clientId ≠ summarizerClientId) ∧
    ((facadeGenerateSummary onBehalfOfClientId clientId summarizerClientId delegated).2 =
        none ↔
      ¬ (onBehalfOfClientId ≠ summarizerClientId ∧ clientId ≠ summarizerClientId)) := by
  by_cases hcond : onBehalfOfClientId ≠ summarizerClientId ∧ clientId ≠ summarizerClientId <;>
    simp [facadeGenerateSummary, hcond]
